import Mathlib

/-!
Verification of the session/token lifecycle manager of the repository
(`src/frontend2/src/KeycloakProvider.js` and the `App` refresh interval
embedded in `src/docker-compose2.yml`).

The JavaScript component is shallowly embedded: `localStorage` becomes an
explicit `Store`, the React state (`token`, `isAuthenticated`, `error`)
becomes a `ClientState`, network calls take their outcome as an explicit
parameter, and the manual JWT-payload decode
(`JSON.parse(atob(storedToken.split('.')[1]))` followed by
`tokenData.exp * 1000`) is embedded down to the character level, with
`atob` implemented as the HTML forgiving-base64 decoder and `JSON.parse`
as a JSON parser over the fragment the token payloads inhabit
(integer numerals; see `parseJVal`).
-/

/-- JSON values as produced by `JSON.parse`.  Numerals are modelled as
integers: token expiry claims are epoch-second integers, which is the
numeral fragment the embedded parser accepts. -/
inductive JsVal where
  | null : JsVal
  | bool (b : Bool) : JsVal
  | num (n : Int) : JsVal
  | str (s : String) : JsVal
  | arr (elems : List JsVal) : JsVal
  | obj (fields : List (String × JsVal)) : JsVal
  deriving Repr, BEq

/-- Value of a base64 alphabet character (RFC 4648 standard alphabet, the
one `atob` uses). -/
def base64Val (c : Char) : Option Nat :=
  if 'A' ≤ c ∧ c ≤ 'Z' then some (c.toNat - 65)
  else if 'a' ≤ c ∧ c ≤ 'z' then some (c.toNat - 97 + 26)
  else if '0' ≤ c ∧ c ≤ '9' then some (c.toNat - 48 + 52)
  else if c = '+' then some 62
  else if c = '/' then some 63
  else none

/-- ASCII whitespace stripped by the forgiving-base64 decoder. -/
def isB64Ws (c : Char) : Bool :=
  c = ' ' ∨ c = '\t' ∨ c = '\n' ∨ c = '\r' ∨ c = '\x0c'

/-- Remove up to two trailing `=` padding characters. -/
def stripTrailingEq (l : List Char) : List Char :=
  match l.reverse with
  | '=' :: '=' :: rest => rest.reverse
  | '=' :: rest => rest.reverse
  | _ => l

/-- Turn a list of sextets into bytes; a trailing group of one sextet is a
syntax error, trailing groups of two or three sextets contribute one or
two bytes (excess bits discarded, as the forgiving-base64 decoder does). -/
def sextetsToBytes : List Nat → Option (List Nat)
  | [] => some []
  | [_] => none
  | [a, b] => some [(a % 64) * 4 + b / 16]
  | [a, b, c] => some [(a % 64) * 4 + b / 16, (b % 16) * 16 + c / 4]
  | a :: b :: c :: d :: rest =>
      match sextetsToBytes rest with
      | none => none
      | some tail =>
          some ([(a % 64) * 4 + b / 16, (b % 16) * 16 + c / 4, (c % 4) * 64 + d % 64] ++ tail)

/-- `window.atob`: the HTML forgiving-base64 decoder.  Returns `none` when
the browser implementation throws `InvalidCharacterError`.  The decoded
bytes are returned as characters (JavaScript's binary string). -/
def atob (input : List Char) : Option (List Char) :=
  let cs := input.filter (fun c => ¬ isB64Ws c)
  let cs := if cs.length % 4 = 0 then stripTrailingEq cs else cs
  if cs.length % 4 = 1 then none
  else
    match cs.mapM base64Val with
    | none => none
    | some sextets =>
        match sextetsToBytes sextets with
        | none => none
        | some bytes => some (bytes.map Char.ofNat)

/-- JSON insignificant whitespace. -/
def isJsonWs (c : Char) : Bool :=
  c = ' ' ∨ c = '\t' ∨ c = '\n' ∨ c = '\r'

def skipJsonWs : List Char → List Char
  | c :: rest => if isJsonWs c then skipJsonWs rest else c :: rest
  | [] => []

/-- Match an exact literal suffix (used for `null`, `true`, `false`). -/
def expectChars : List Char → List Char → Option (List Char)
  | [], rest => some rest
  | e :: es, c :: rest => if c = e then expectChars es rest else none
  | _ :: _, [] => none

def hexVal (c : Char) : Option Nat :=
  if '0' ≤ c ∧ c ≤ '9' then some (c.toNat - 48)
  else if 'a' ≤ c ∧ c ≤ 'f' then some (c.toNat - 97 + 10)
  else if 'A' ≤ c ∧ c ≤ 'F' then some (c.toNat - 65 + 10)
  else none

/-- Parse the body of a JSON string (the opening quote already consumed),
returning the string's characters and the remaining input. -/
def parseJStringBody (fuel : Nat) (l : List Char) : Option (List Char × List Char) :=
  match fuel, l with
  | 0, _ => none
  | _, [] => none
  | fuel + 1, c :: rest =>
    if c = '"' then some ([], rest)
    else if c = '\\' then
      match rest with
      | [] => none
      | e :: rest2 =>
        let charFor : Option Char :=
          if e = '"' then some '"'
          else if e = '\\' then some '\\'
          else if e = '/' then some '/'
          else if e = 'b' then some '\x08'
          else if e = 'f' then some '\x0c'
          else if e = 'n' then some '\n'
          else if e = 'r' then some '\r'
          else if e = 't' then some '\t'
          else none
        match charFor with
        | some ch =>
            match parseJStringBody fuel rest2 with
            | some (tail, rem) => some (ch :: tail, rem)
            | none => none
        | none =>
            if e = 'u' then
              match rest2 with
              | h1 :: h2 :: h3 :: h4 :: rest3 =>
                match hexVal h1, hexVal h2, hexVal h3, hexVal h4 with
                | some a, some b, some c2, some d =>
                    let code := ((a * 16 + b) * 16 + c2) * 16 + d
                    match parseJStringBody fuel rest3 with
                    | some (tail, rem) => some (Char.ofNat code :: tail, rem)
                    | none => none
                | _, _, _, _ => none
              | _ => none
            else none
    else if c.toNat < 32 then none
    else
      match parseJStringBody fuel rest with
      | some (tail, rem) => some (c :: tail, rem)
      | none => none

/-- Parse a nonempty run of decimal digits. -/
def parseDigits : List Char → Option (Nat × Nat × List Char)
  | c :: rest =>
    if c.isDigit then
      match parseDigits rest with
      | some (v, count, rem) =>
          some ((c.toNat - 48) * 10 ^ count + v, count + 1, rem)
      | none => some (c.toNat - 48, 1, rest)
    else none
  | [] => none

mutual

/-- Parse one JSON value.  Restricted to integer numerals (no fraction or
exponent part), which covers every payload the token pipeline produces. -/
def parseJVal : Nat → List Char → Option (JsVal × List Char)
  | 0, _ => none
  | fuel + 1, l =>
    match skipJsonWs l with
    | [] => none
    | c :: rest =>
      if c = 'n' then
        match expectChars ['u', 'l', 'l'] rest with
        | some rem => some (JsVal.null, rem)
        | none => none
      else if c = 't' then
        match expectChars ['r', 'u', 'e'] rest with
        | some rem => some (JsVal.bool true, rem)
        | none => none
      else if c = 'f' then
        match expectChars ['a', 'l', 's', 'e'] rest with
        | some rem => some (JsVal.bool false, rem)
        | none => none
      else if c = '"' then
        match parseJStringBody (rest.length + 1) rest with
        | some (chars, rem) => some (JsVal.str (String.mk chars), rem)
        | none => none
      else if c = '-' then
        match parseDigits rest with
        | some (v, count, rem) =>
            if 2 ≤ count ∧ v < 10 ^ (count - 1) then none
            else some (JsVal.num (-(v : Int)), rem)
        | none => none
      else if c.isDigit then
        match parseDigits (c :: rest) with
        | some (v, count, rem) =>
            if 2 ≤ count ∧ v < 10 ^ (count - 1) then none
            else some (JsVal.num (v : Int), rem)
        | none => none
      else if c = '[' then
        match skipJsonWs rest with
        | ']' :: rem => some (JsVal.arr [], rem)
        | l2 => match parseArrItems fuel l2 with
          | some (elems, rem) => some (JsVal.arr elems, rem)
          | none => none
      else if c = Char.ofNat 123 then
        match skipJsonWs rest with
        | c2 :: rem =>
            if c2 = Char.ofNat 125 then some (JsVal.obj [], rem)
            else match parseObjItems fuel (c2 :: rem) with
              | some (fields, rem2) => some (JsVal.obj fields, rem2)
              | none => none
        | [] => none
      else none

/-- Parse the items of a nonempty JSON array, up to and including `]`. -/
def parseArrItems : Nat → List Char → Option (List JsVal × List Char)
  | 0, _ => none
  | fuel + 1, l =>
    match parseJVal fuel l with
    | none => none
    | some (v, rem) =>
      match skipJsonWs rem with
      | ',' :: rem2 =>
          match parseArrItems fuel rem2 with
          | some (vs, rem3) => some (v :: vs, rem3)
          | none => none
      | ']' :: rem2 => some ([v], rem2)
      | _ => none

/-- Parse the members of a nonempty JSON object, up to and including the
closing brace. -/
def parseObjItems : Nat → List Char → Option (List (String × JsVal) × List Char)
  | 0, _ => none
  | fuel + 1, l =>
    match skipJsonWs l with
    | '"' :: rest =>
      match parseJStringBody (rest.length + 1) rest with
      | none => none
      | some (keyChars, rem) =>
        match skipJsonWs rem with
        | ':' :: rem2 =>
          match parseJVal fuel rem2 with
          | none => none
          | some (v, rem3) =>
            match skipJsonWs rem3 with
            | ',' :: rem4 =>
                match parseObjItems fuel rem4 with
                | some (fields, rem5) => some ((String.mk keyChars, v) :: fields, rem5)
                | none => none
            | c :: rem4 =>
                if c = Char.ofNat 125 then some ([(String.mk keyChars, v)], rem4)
                else none
            | [] => none
        | _ => none
    | _ => none

end

/-- `JSON.parse`: parse a complete JSON text, rejecting trailing garbage.
`none` models the `SyntaxError` throw. -/
def jsonParse (l : List Char) : Option JsVal :=
  match parseJVal (2 * l.length + 2) l with
  | some (v, rem) =>
      match skipJsonWs rem with
      | [] => some v
      | _ => none
  | none => none

/-! ## The token decode pipeline of `checkTokenValidity`

Source (`KeycloakProvider.js`, lines 31-49):
`const tokenData = JSON.parse(atob(storedToken.split('.')[1]));`
`const expiryTime = tokenData.exp * 1000;`
`if (expiryTime - currentTime < 300000) ...`
-/

/-- `storedToken.split('.')`. -/
def splitDot : List Char → List (List Char)
  | [] => [[]]
  | c :: rest =>
    if c = '.' then [] :: splitDot rest
    else
      match splitDot rest with
      | p :: ps => (c :: p) :: ps
      | [] => [[c]]

/-- The nine characters of the string an absent segment coerces to. -/
def undefinedChars : List Char := "undefined".toList

/-- `storedToken.split('.')[1]` as the argument `atob` receives: an
out-of-range index yields `undefined`, which `atob` coerces to the
nine-character string `"undefined"`. -/
def payloadSegment (storedToken : String) : List Char :=
  (splitDot storedToken.toList).getD 1 undefinedChars

/-- `JSON.parse(atob(storedToken.split('.')[1]))`; `none` models a thrown
exception (from `atob` or from `JSON.parse`). -/
def decodeTokenData (storedToken : String) : Option JsVal :=
  match atob (payloadSegment storedToken) with
  | none => none
  | some payload => jsonParse payload

/-- Property read `tokenData.exp`: the last `"exp"` member wins (as in a
JavaScript object built by `JSON.parse`). `none` models the `TypeError`
thrown when `tokenData` is `null`; `some none` is `undefined` (no such
property, including every non-object non-null base). -/
def readExpProp : JsVal → Option (Option JsVal)
  | JsVal.null => none
  | JsVal.obj fields =>
      some (fields.foldl (fun acc kv => if kv.1 = "exp" then some kv.2 else acc) none)
  | _ => some none

/-- JavaScript `ToNumber` on the JSON-value domain, with `none` playing
NaN.  Strings are handled for the empty/integer-literal forms and arrays
for the empty/singleton-integer forms (the array cases coerce through
their comma-joined string); richer coercion forms do not occur in token
payloads and are mapped to NaN. -/
def jsToNumber : JsVal → Option Int
  | JsVal.null => some 0
  | JsVal.bool b => some (if b then 1 else 0)
  | JsVal.num n => some n
  | JsVal.str s =>
      let t := s.trim
      if t = "" then some 0
      else
        match t.toList with
        | '-' :: ds =>
            match parseDigits ds with
            | some (v, _, []) => some (-(v : Int))
            | _ => none
        | ds =>
            match parseDigits ds with
            | some (v, _, []) => some ((v : Int))
            | _ => none
  | JsVal.arr [] => some 0
  | JsVal.arr [JsVal.num n] => some n
  | JsVal.arr _ => none
  | JsVal.obj _ => none

/-- `tokenData.exp * 1000` with NaN propagation (`none` = NaN); in
particular `undefined * 1000` is NaN. -/
def expiryTimeOf (expProp : Option JsVal) : Option Int :=
  match expProp with
  | none => none
  | some v =>
      match jsToNumber v with
      | none => none
      | some n => some (n * 1000)

/-- The three ways the body of `checkTokenValidity` can go: attempt a
refresh, run the `catch` branch (`logout()`), or fall through doing
nothing. -/
inductive CheckAction where
  | tryRefresh : CheckAction
  | forceLogout : CheckAction
  | noAction : CheckAction
  deriving Repr, BEq, DecidableEq

/-- Tail of `checkTokenValidity` once the `exp` property was read (`none`
is the throw from reading a property of `null`, landing in the `catch`
branch): refresh exactly when `expiryTime - currentTime < 300000` — and
NaN comparisons are false, so a payload without a numeric `exp` claim
falls through silently. -/
def checkFromExpProp (currentTime : Int) : Option (Option JsVal) → CheckAction
  | none => CheckAction.forceLogout
  | some expProp =>
      match expiryTimeOf expProp with
      | none => CheckAction.noAction
      | some expiryTime =>
          if expiryTime - currentTime < 300000 then CheckAction.tryRefresh
          else CheckAction.noAction

/-- Tail of `checkTokenValidity` once the payload was decoded (`none` is a
throw from `atob`/`JSON.parse`, landing in the `catch` branch which calls
`logout()`). -/
def checkFromData (currentTime : Int) : Option JsVal → CheckAction
  | none => CheckAction.forceLogout
  | some tokenData => checkFromExpProp currentTime (readExpProp tokenData)

/-- The decision made by `checkTokenValidity` (initial `useEffect`): decode
the stored token's payload, read `tokenData.exp`, and compare
`tokenData.exp * 1000 - currentTime` against the 300000 ms margin; every
thrown exception lands in the `catch` branch which calls `logout()`. -/
def checkTokenValidity (currentTime : Int) (storedToken : String) : CheckAction :=
  checkFromData currentTime (decodeTokenData storedToken)

/-! ## Client state: `localStorage` and the React state of the provider -/

/-- The two `localStorage` entries (`'token'`, `'refresh_token'`);
`none` means the key is absent. -/
structure Store where
  token : Option String
  refresh_token : Option String
  deriving Repr, BEq, DecidableEq

/-- The provider's observable state: the persisted store, the React state
`token` / `isAuthenticated` / `error`, and a count of `logout()`
invocations (each one is the collaborators' logged-out notification). -/
structure ClientState where
  store : Store
  token : Option String
  isAuthenticated : Bool
  error : String
  logoutEvents : Nat
  deriving Repr, BEq, DecidableEq

/-- JavaScript truthiness of a possibly-absent string (`getItem` returns
`null` for a missing key; `''` is falsy too). -/
def truthy : Option String → Bool
  | none => false
  | some s => ¬ (s = "")

/-- `logout()`: remove both `localStorage` entries, clear the in-memory
token, drop `isAuthenticated`.  The event counter records the
notification collaborators observe. -/
def logout (s : ClientState) : ClientState :=
  { store := { token := none, refresh_token := none },
    token := none,
    isAuthenticated := false,
    error := s.error,
    logoutEvents := s.logoutEvents + 1 }

/-- Outcome of one identity-provider token-endpoint call, supplied as an
explicit parameter of the embedded network functions. -/
inductive RefreshOutcome where
  | ok (access_token refresh_token : String) : RefreshOutcome
  | err : RefreshOutcome
  deriving Repr, BEq, DecidableEq

/-- Outcome of the password-grant call made by `login()`. -/
inductive GrantResult where
  | success (access_token refresh_token : String) : GrantResult
  | failure : GrantResult
  deriving Repr, BEq, DecidableEq

def loginErrorMessage : String := "Échec de connexion. Vérifiez vos identifiants."

/-- `login()`: clear the error, call the password grant; on success save
both tokens and set `isAuthenticated`; on failure only `setError` runs —
no store access at all in the `catch` branch. -/
def login (s : ClientState) (r : GrantResult) : ClientState :=
  let s1 := { s with error := "" }
  match r with
  | GrantResult.success a rt =>
      { s1 with
        store := { token := some a, refresh_token := some rt },
        token := some a,
        isAuthenticated := true }
  | GrantResult.failure => { s1 with error := loginErrorMessage }

/-- What one call of the facade's `updateToken(minValidity)` produces: the
resulting state, the boolean it resolves with, and how many refresh
requests it posted to the identity provider (0 or 1). -/
structure UpdateResult where
  state : ClientState
  returned : Bool
  requestsSent : Nat
  deriving Repr, BEq, DecidableEq

/-- `keycloak.updateToken(minValidity)`: read `refresh_token` from storage;
if falsy resolve `false` without any request; otherwise post the
refresh-grant request unconditionally — `minValidity` is never read and no
expiry check happens.  On success save both tokens and `setToken`; the
`catch` branch calls `logout()` and resolves `false`. -/
def updateToken (minValidity : Int) (outcome : RefreshOutcome) (s : ClientState) : UpdateResult :=
  if truthy s.store.refresh_token then
    match outcome with
    | RefreshOutcome.ok a rt =>
        { state := { s with
            store := { token := some a, refresh_token := some rt },
            token := some a },
          returned := true,
          requestsSent := 1 }
    | RefreshOutcome.err =>
        { state := logout s, returned := false, requestsSent := 1 }
  else { state := s, returned := false, requestsSent := 0 }

/-- The standalone `refreshToken(refreshTokenValue)` helper used by the
initial `useEffect`: resolves `false` for a falsy argument or on any
request failure (its `catch` does *not* log out; the caller does), saves
both tokens and resolves `true` on success. -/
def refreshTokenCall (refreshTokenValue : Option String) (outcome : RefreshOutcome)
    (s : ClientState) : ClientState × Bool :=
  if truthy refreshTokenValue then
    match outcome with
    | RefreshOutcome.ok a rt =>
        ({ s with
            store := { token := some a, refresh_token := some rt },
            token := some a },
          true)
    | RefreshOutcome.err => (s, false)
  else (s, false)

/-- The two observable snapshots of the mount-time `useEffect`.  An async
function body runs synchronously until its first `await`, and React
batches the setter calls of one tick into one observable render, so:
`afterSync` is the state once the whole synchronous part of the mount
tick ran — `setToken`/`setIsAuthenticated(true)` *and* the body of
`checkTokenValidity` up to its first `await`, which is reached only on
the refresh-attempt path (in particular the decode `catch`'s `logout()`
runs inside the same tick, unobservably overwriting the setters); and
`afterSettled` is the state once the awaited refresh call settled
(identical to `afterSync` when no `await` is reached). -/
structure InitResult where
  afterSync : ClientState
  afterSettled : ClientState
  deriving Repr, BEq, DecidableEq

/-- The authenticated state the mount-tick setters establish before the
validity check's outcome is folded into the same render. -/
def mountedState (persisted : Store) (storedToken : String) : ClientState :=
  { store := persisted, token := some storedToken, isAuthenticated := true,
    error := "", logoutEvents := 0 }

/-- The initial `useEffect` run on process start over the persisted store:
if `localStorage.getItem('token')` is truthy the component runs
`setToken`/`setIsAuthenticated(true)` and then `checkTokenValidity` in
the same synchronous tick; only the `await refreshToken(...)` of the
refresh-attempt path suspends, so only there do the two snapshots
differ — a thrown decode logs out synchronously, a not-near-expiry token
stays as mounted, and a near-expiry token stays exposed as mounted until
the awaited call settles (success saves the new tokens, a `false`
resolution logs out). -/
def initialEffect (persisted : Store) (currentTime : Int) (outcome : RefreshOutcome) :
    InitResult :=
  let s0 : ClientState :=
    { store := persisted, token := none, isAuthenticated := false,
      error := "", logoutEvents := 0 }
  match persisted.token with
  | none => { afterSync := s0, afterSettled := s0 }
  | some storedToken =>
    if storedToken = "" then { afterSync := s0, afterSettled := s0 }
    else
      let s1 := mountedState persisted storedToken
      match checkTokenValidity currentTime storedToken with
      | CheckAction.forceLogout => { afterSync := logout s1, afterSettled := logout s1 }
      | CheckAction.noAction => { afterSync := s1, afterSettled := s1 }
      | CheckAction.tryRefresh =>
          match refreshTokenCall persisted.refresh_token outcome s1 with
          | (s2, true) => { afterSync := s1, afterSettled := s2 }
          | (s2, false) => { afterSync := s1, afterSettled := logout s2 }

/-! ## The `keycloak` facade handed to collaborators -/

/-- The ad-hoc `keycloak` object placed into `AuthContext.Provider`: three
data snapshots plus the three operations `login`, `logout` and
`updateToken` — the operations are the very state-machine functions, so
every consumer of the context can invoke them. -/
structure KeycloakFacade where
  token : Option String
  refreshToken : Option String
  authenticated : Bool
  login : GrantResult → ClientState → ClientState
  logout : ClientState → ClientState
  updateToken : Int → RefreshOutcome → ClientState → UpdateResult

/-- Build the facade from the current provider state, exactly as the
`const keycloak = { ... }` literal does. -/
def mkKeycloak (s : ClientState) : KeycloakFacade :=
  { token := s.token,
    refreshToken := s.store.refresh_token,
    authenticated := s.isAuthenticated,
    login := fun r st => login st r,
    logout := logout,
    updateToken := updateToken }

/-! ## The running application: timer fires and network completions

The `App` component (embedded in `src/docker-compose2.yml`) runs
`setInterval(() => keycloak.updateToken(60), 30000)`.  `updateToken`
synchronously reads `refresh_token` and posts the request; only then does
it await the response, so the interval between posting and completion is
observable and several requests can overlap. -/

/-- Application state for renewal traces: the provider state plus how many
refresh requests are in flight and how many were ever sent. -/
structure AppState where
  cs : ClientState
  inFlight : Nat
  sent : Nat
  deriving Repr, BEq, DecidableEq

/-- Events of a renewal trace: an interval-timer fire (which runs the
synchronous prefix of `updateToken(60)`), or the completion of one
outstanding request. -/
inductive AppEvent where
  | timerFire : AppEvent
  | refreshOk (access_token refresh_token : String) : AppEvent
  | refreshErr : AppEvent
  deriving Repr, BEq, DecidableEq

/-- One trace step.  A timer fire posts a request whenever storage holds a
truthy `refresh_token` — there is no in-flight guard, no `Renewing` flag,
nothing read but the store.  Completions apply `updateToken`'s
continuation: success saves the new tokens, failure runs `logout()`. -/
def appStep (s : AppState) : AppEvent → AppState
  | AppEvent.timerFire =>
      if truthy s.cs.store.refresh_token then
        { s with inFlight := s.inFlight + 1, sent := s.sent + 1 }
      else s
  | AppEvent.refreshOk a rt =>
      if s.inFlight = 0 then s
      else
        { cs := { s.cs with
            store := { token := some a, refresh_token := some rt },
            token := some a },
          inFlight := s.inFlight - 1,
          sent := s.sent }
  | AppEvent.refreshErr =>
      if s.inFlight = 0 then s
      else
        { cs := logout s.cs, inFlight := s.inFlight - 1, sent := s.sent }

/-- Run a trace of events. -/
def appRun (s : AppState) : List AppEvent → AppState
  | [] => s
  | e :: es => appRun (appStep s e) es

/-! ## Credential-store operations -/

/-- The persistence performed on a successful grant:
`localStorage.setItem('token', access_token)` then
`localStorage.setItem('refresh_token', refresh_token)`. -/
def saveCredential (access_token refresh_token : String) (_ : Store) : Store :=
  { token := some access_token, refresh_token := some refresh_token }

/-- The load performed by the initial `useEffect`: both entries are read
raw and the session counts as present exactly when the access-token entry
is truthy (`if (storedToken)`); nothing is deserialized or validated at
load time. -/
def loadCredential (st : Store) : Option (String × Option String) :=
  match st.token with
  | none => none
  | some t => if t = "" then none else some (t, st.refresh_token)

/-! ## Concrete scenario data used by the witnesses and counterexamples -/

/-- An access-token string as stored by a successful login. -/
def tok0 : String := "t0"

/-- A renewal-token string as stored by a successful login. -/
def ref0 : String := "r0"

/-- The access token an identity-provider response carries. -/
def tok1 : String := "t1"

/-- The renewal token an identity-provider response carries. -/
def ref1 : String := "r1"

/-- A well-formed token whose payload segment decodes to the object with
`exp` claim `3600` (one hour past the epoch used as login time). -/
def farToken : String := "h.eyJleHAiOjM2MDB9.s"

/-- A three-segment token whose payload decodes to an object with no
`exp` member (`e30` is the base64 of the empty object). -/
def noExpToken : String := "h.e30.s"

/-- A token with only two segments (wrong segment count for a JWT) whose
index-1 segment still decodes to an object with `exp` claim `1`. -/
def twoSegToken : String := "a.eyJleHAiOjF9"

/-- A token with four segments carrying the same index-1 segment as
`twoSegToken`. -/
def fourSegToken : String := "x.eyJleHAiOjF9.y.z"

/-- A token whose payload segment is not base64-decodable. -/
def badB64Token : String := "a.!!.c"

/-- An opaque corrupt string: no `.`-separator, so the payload segment is
absent and the decode throws. -/
def garbageToken : String := "garbage"

/-- The empty store: neither `localStorage` entry present. -/
def emptyStore : Store := { token := none, refresh_token := none }

/-- A store persisted by a login whose access token is `farToken`. -/
def farStore : Store := { token := some farToken, refresh_token := some ref0 }

/-- A store whose persisted access token is corrupt. -/
def corruptStore : Store := { token := some garbageToken, refresh_token := some ref0 }

/-- An authenticated client state with both storage entries present. -/
def sAuth : ClientState :=
  { store := { token := some tok0, refresh_token := some ref0 },
    token := some tok0, isAuthenticated := true, error := "", logoutEvents := 0 }

/-- An authenticated client state holding `farToken`, whose expiry is a
full hour away from time 0. -/
def sFar : ClientState :=
  { store := farStore, token := some farToken,
    isAuthenticated := true, error := "", logoutEvents := 0 }

/-- The logged-out client state. -/
def sOut : ClientState :=
  { store := emptyStore, token := none, isAuthenticated := false,
    error := "", logoutEvents := 0 }

/-- Trace start: the authenticated state with no renewal in flight. -/
def appStart : AppState := { cs := sAuth, inFlight := 0, sent := 0 }

/-! ## Claim C1 — at most one in-flight renewal -/

/-- C1 counterexample: two timer fires of the `App` refresh interval while
the first request is still outstanding give two overlapping in-flight
refresh requests and two posted requests — nothing is coalesced. -/
theorem c1_counterexample_double_fire :
    (appRun appStart [AppEvent.timerFire, AppEvent.timerFire]).inFlight = 2
    ∧ (appRun appStart [AppEvent.timerFire, AppEvent.timerFire]).sent = 2 :=
  ⟨rfl, rfl⟩

/-- C1 (amended): renewal triggers are never coalesced — while a truthy
renewal token is in storage, every one of `n` consecutive timer fires
posts its own refresh request, so `n` triggers leave `n` overlapping
in-flight calls. -/
theorem c1_amended_no_coalescing (n : Nat) (s : AppState)
    (h : truthy s.cs.store.refresh_token = true) :
    (appRun s (List.replicate n AppEvent.timerFire)).sent = s.sent + n
    ∧ (appRun s (List.replicate n AppEvent.timerFire)).inFlight = s.inFlight + n := by
  induction n generalizing s with
  | zero => exact ⟨rfl, rfl⟩
  | succ k ih =>
      rw [List.replicate_succ]
      have hstep : appStep s AppEvent.timerFire =
          { s with inFlight := s.inFlight + 1, sent := s.sent + 1 } := by
        simp [appStep, h]
      have hres := ih { s with inFlight := s.inFlight + 1, sent := s.sent + 1 } h
      show (appRun (appStep s AppEvent.timerFire) (List.replicate k AppEvent.timerFire)).sent
            = s.sent + (k + 1)
          ∧ (appRun (appStep s AppEvent.timerFire) (List.replicate k AppEvent.timerFire)).inFlight
            = s.inFlight + (k + 1)
      rw [hstep]
      refine ⟨?_, ?_⟩
      · rw [hres.1]
        show s.sent + 1 + k = s.sent + (k + 1)
        omega
      · rw [hres.2]
        show s.inFlight + 1 + k = s.inFlight + (k + 1)
        omega

/-- C1 witness: from the concrete authenticated start state, two timer
fires send two requests and leave two in flight. -/
theorem c1_amended_no_coalescing_witness :
    truthy appStart.cs.store.refresh_token = true
    ∧ ((appRun appStart (List.replicate 2 AppEvent.timerFire)).sent = appStart.sent + 2
       ∧ (appRun appStart (List.replicate 2 AppEvent.timerFire)).inFlight
          = appStart.inFlight + 2) :=
  ⟨rfl, c1_amended_no_coalescing 2 appStart rfl⟩

/-! ## Claim C2 — transient renewal failure below the retry threshold -/

/-- C2 counterexample: from the authenticated state, the very first
transient renewal failure (zero previous consecutive soft failures, below
any positive threshold) leaves the session unauthenticated with the store
cleared — it is not retried at the next tick. -/
theorem c2_counterexample_first_failure_logs_out :
    (updateToken 60 RefreshOutcome.err sAuth).state.isAuthenticated = false
    ∧ (updateToken 60 RefreshOutcome.err sAuth).state.store = emptyStore
    ∧ sAuth.isAuthenticated = true :=
  ⟨rfl, rfl, rfl⟩

/-- C2 (amended): any renewal failure, transient or not, immediately runs
`logout()` — there is no soft-failure counter and no retry; the previous
credential is discarded at once. -/
theorem c2_amended_renewal_failure_always_logs_out (m : Int) (s : ClientState)
    (h : truthy s.store.refresh_token = true) :
    (updateToken m RefreshOutcome.err s).state = logout s
    ∧ (updateToken m RefreshOutcome.err s).returned = false
    ∧ (updateToken m RefreshOutcome.err s).requestsSent = 1 := by
  refine ⟨?_, ?_, ?_⟩ <;> simp [updateToken, h]

/-- C2 witness: the amended theorem at the concrete authenticated state. -/
theorem c2_amended_witness :
    truthy sAuth.store.refresh_token = true
    ∧ ((updateToken 60 RefreshOutcome.err sAuth).state = logout sAuth
       ∧ (updateToken 60 RefreshOutcome.err sAuth).returned = false
       ∧ (updateToken 60 RefreshOutcome.err sAuth).requestsSent = 1) :=
  ⟨rfl, c2_amended_renewal_failure_always_logs_out 60 sAuth rfl⟩

/-! ## Claim C3 — renewal exactly when less than the 5-minute margin -/

/-- C3 counterexample: with `farToken` (exp a full hour past time 0) the
margin check itself reports "not near expiry", yet a timer fire of the
refresh interval still posts a refresh request. -/
theorem c3_counterexample_timer_fire_ignores_margin :
    checkTokenValidity 0 farToken = CheckAction.noAction
    ∧ decodeTokenData farToken = some (JsVal.obj [("exp", JsVal.num 3600)])
    ∧ (updateToken 60 (RefreshOutcome.ok tok1 ref1) sFar).requestsSent = 1 :=
  ⟨rfl, rfl, rfl⟩

/-- C3 (amended): the 5-minute margin (`expiryTime - currentTime <
300000`) governs only the one-shot `checkTokenValidity` at process start;
a recurring timer fire runs `updateToken`, which posts a refresh request
exactly when a truthy renewal token is in storage, regardless of the
remaining lifetime. -/
theorem c3_amended_margin_only_at_startup (expSecs currentTime m : Int)
    (o : RefreshOutcome) (s : ClientState) (tok : String)
    (h : decodeTokenData tok = some (JsVal.obj [("exp", JsVal.num expSecs)])) :
    (checkTokenValidity currentTime tok = CheckAction.tryRefresh
       ↔ expSecs * 1000 - currentTime < 300000)
    ∧ (updateToken m o s).requestsSent
       = (if truthy s.store.refresh_token then 1 else 0) := by
  constructor
  · unfold checkTokenValidity
    rw [h]
    show (if expSecs * 1000 - currentTime < 300000 then CheckAction.tryRefresh
          else CheckAction.noAction) = CheckAction.tryRefresh
        ↔ expSecs * 1000 - currentTime < 300000
    by_cases hc : expSecs * 1000 - currentTime < 300000
    · simp [hc]
    · simp [hc]
  · by_cases ht : truthy s.store.refresh_token = true
    · cases o <;> simp [updateToken, ht]
    · simp [updateToken, ht]

/-- C3 witness: at `currentTime` = now+3595 s (5 s of margin left) the
startup check does refresh, and the timer-fire path posts a request from
the far-from-expiry state. -/
theorem c3_amended_witness :
    decodeTokenData farToken = some (JsVal.obj [("exp", JsVal.num 3600)])
    ∧ ((checkTokenValidity 3595000 farToken = CheckAction.tryRefresh
          ↔ (3600 : Int) * 1000 - 3595000 < 300000)
       ∧ (updateToken 60 (RefreshOutcome.ok tok1 ref1) sFar).requestsSent
          = (if truthy sFar.store.refresh_token then 1 else 0)) :=
  ⟨rfl, c3_amended_margin_only_at_startup 3600 3595000 60
    (RefreshOutcome.ok tok1 ref1) sFar farToken rfl⟩

/-! ## Claim C4 — decode fails on every structural parse error -/

/-- C4 counterexample: a payload with no `exp` claim decodes successfully
and falls through silently (the NaN comparison is false), and a
two-segment token — wrong segment count — also decodes successfully and
even triggers a refresh; neither input produces the malformed-token
(logout) path. -/
theorem c4_counterexample_structural_errors_succeed :
    decodeTokenData noExpToken = some (JsVal.obj [])
    ∧ checkTokenValidity 0 noExpToken = CheckAction.noAction
    ∧ decodeTokenData twoSegToken = some (JsVal.obj [("exp", JsVal.num 1)])
    ∧ checkTokenValidity 0 twoSegToken = CheckAction.tryRefresh :=
  ⟨rfl, rfl, rfl, rfl⟩

/-- C4 (amended): the decode parses only segment index 1, without
signature verification — any two tokens with the same index-1 segment
decode identically, so segment count is never validated; a payload whose
decode throws (non-base64, non-JSON, or `null` payload) runs the
`catch`/logout path; but a successfully parsed object payload missing the
`exp` claim is *not* an error: the validity check silently does nothing. -/
theorem c4_amended_decode_behaviour (tok tok2 tok3 tok4 : String)
    (currentTime : Int) (fields : List (String × JsVal))
    (hdec : decodeTokenData tok = some (JsVal.obj fields))
    (hnoexp : readExpProp (JsVal.obj fields) = some none)
    (hbad : decodeTokenData tok2 = none)
    (hseg : payloadSegment tok3 = payloadSegment tok4) :
    checkTokenValidity currentTime tok = CheckAction.noAction
    ∧ checkTokenValidity currentTime tok2 = CheckAction.forceLogout
    ∧ decodeTokenData tok3 = decodeTokenData tok4 := by
  refine ⟨?_, ?_, ?_⟩
  · unfold checkTokenValidity
    rw [hdec]
    show checkFromExpProp currentTime (readExpProp (JsVal.obj fields)) = CheckAction.noAction
    rw [hnoexp]
    rfl
  · unfold checkTokenValidity
    rw [hbad]
    rfl
  · unfold decodeTokenData
    rw [hseg]

/-- C4 witness: the missing-`exp` payload, a non-base64 payload, and the
two- versus four-segment tokens sharing one index-1 segment. -/
theorem c4_amended_witness :
    decodeTokenData noExpToken = some (JsVal.obj [])
    ∧ readExpProp (JsVal.obj []) = some none
    ∧ decodeTokenData badB64Token = none
    ∧ payloadSegment twoSegToken = payloadSegment fourSegToken
    ∧ (checkTokenValidity 0 noExpToken = CheckAction.noAction
       ∧ checkTokenValidity 0 badB64Token = CheckAction.forceLogout
       ∧ decodeTokenData twoSegToken = decodeTokenData fourSegToken) :=
  ⟨rfl, rfl, rfl, rfl,
    c4_amended_decode_behaviour noExpToken badB64Token twoSegToken fourSegToken 0 []
      rfl rfl rfl rfl⟩

/-! ## Claim C5 — hard renewal failure funnels through the single logout path -/

/-- C5: when the refresh grant fails hard (e.g. HTTP `invalid_grant`),
`updateToken`'s catch branch runs `logout()`: both persisted entries are
removed, the in-memory credential is cleared, `isAuthenticated` drops,
and the logged-out notification fires exactly once — all in the single
logout step, with no other state touched. -/
theorem c5_hard_failure_single_logout (m : Int) (s : ClientState)
    (h : truthy s.store.refresh_token = true) :
    (updateToken m RefreshOutcome.err s).state.store = emptyStore
    ∧ (updateToken m RefreshOutcome.err s).state.token = none
    ∧ (updateToken m RefreshOutcome.err s).state.isAuthenticated = false
    ∧ (updateToken m RefreshOutcome.err s).state.logoutEvents = s.logoutEvents + 1
    ∧ (updateToken m RefreshOutcome.err s).returned = false := by
  refine ⟨?_, ?_, ?_, ?_, ?_⟩ <;> simp [updateToken, h, logout, emptyStore]

/-- C5 witness: the failed renewal from the concrete authenticated state
empties the store and notifies exactly once. -/
theorem c5_hard_failure_single_logout_witness :
    truthy sAuth.store.refresh_token = true
    ∧ ((updateToken 60 RefreshOutcome.err sAuth).state.store = emptyStore
       ∧ (updateToken 60 RefreshOutcome.err sAuth).state.token = none
       ∧ (updateToken 60 RefreshOutcome.err sAuth).state.isAuthenticated = false
       ∧ (updateToken 60 RefreshOutcome.err sAuth).state.logoutEvents
          = sAuth.logoutEvents + 1
       ∧ (updateToken 60 RefreshOutcome.err sAuth).returned = false) :=
  ⟨rfl, c5_hard_failure_single_logout 60 sAuth rfl⟩

/-! ## Claim C6 — rejected login leaves the store untouched -/

/-- C6: when the password grant is rejected, the `catch` branch only sets
the user-facing error message: the store is not written, overwritten or
removed, the in-memory token is unchanged, and a logged-out session stays
logged out. -/
theorem c6_login_failure_no_store_mutation (s : ClientState)
    (h : s.isAuthenticated = false) :
    (login s GrantResult.failure).store = s.store
    ∧ (login s GrantResult.failure).token = s.token
    ∧ (login s GrantResult.failure).isAuthenticated = false
    ∧ (login s GrantResult.failure).error = loginErrorMessage
    ∧ (login s GrantResult.failure).logoutEvents = s.logoutEvents := by
  refine ⟨?_, ?_, ?_, ?_, ?_⟩ <;> simp [login, h]

/-- C6 witness: a failed login from the logged-out state. -/
theorem c6_login_failure_no_store_mutation_witness :
    sOut.isAuthenticated = false
    ∧ ((login sOut GrantResult.failure).store = sOut.store
       ∧ (login sOut GrantResult.failure).token = sOut.token
       ∧ (login sOut GrantResult.failure).isAuthenticated = false
       ∧ (login sOut GrantResult.failure).error = loginErrorMessage
       ∧ (login sOut GrantResult.failure).logoutEvents = sOut.logoutEvents) :=
  ⟨rfl, c6_login_failure_no_store_mutation sOut rfl⟩

/-! ## Claim C7 — credential store round-trip and absence -/

/-- C7 counterexample: a persisted access-token string that fails to
deserialize (its decode throws) is *not* treated as absent: `load` returns
it as a present credential, and the mount-time validity check then
escalates to a logout notification instead of silently reporting
absence. -/
theorem c7_counterexample_corrupt_not_absent :
    loadCredential corruptStore = some (garbageToken, some ref0)
    ∧ decodeTokenData garbageToken = none
    ∧ (initialEffect corruptStore 0 RefreshOutcome.err).afterSync.logoutEvents = 1 :=
  ⟨rfl, rfl, rfl⟩

/-- C7 (amended): `save` followed by `load` returns the saved pair for any
credential with a truthy access token, and `load` reports absence exactly
when the access-token entry is missing or empty; there is no
deserialization step at load time — corrupt stored data is returned as a
present credential (the mount-time check then forces a logout in the same
tick), never treated as absent. -/
theorem c7_amended_roundtrip (a rt : String) (st st2 : Store)
    (h : ¬ a = "") :
    loadCredential (saveCredential a rt st) = some (a, some rt)
    ∧ (loadCredential st2 = none ↔ (st2.token = none ∨ st2.token = some "")) := by
  constructor
  · simp [loadCredential, saveCredential, h]
  · cases hst : st2.token with
    | none => simp [loadCredential, hst]
    | some t =>
        by_cases hte : t = "" <;> simp [loadCredential, hst, hte]

/-- C7 witness: the round trip at a concrete credential and the absence
condition at the empty store. -/
theorem c7_amended_roundtrip_witness :
    ¬ tok0 = ""
    ∧ (loadCredential (saveCredential tok0 ref0 emptyStore) = some (tok0, some ref0)
       ∧ (loadCredential emptyStore = none
            ↔ (emptyStore.token = none ∨ emptyStore.token = some ""))) :=
  ⟨by decide, c7_amended_roundtrip tok0 ref0 emptyStore emptyStore (by decide)⟩

/-! ## Claim C8 — the facade exposes no mutation methods -/

/-- C8 counterexample: the `logout` operation is reachable through the
`keycloak` facade object handed to collaborators, and invoking it from the
authenticated state clears the persisted store, drops authentication and
fires the logged-out notification — a mutation performed through the
facade. -/
theorem c8_counterexample_facade_mutates :
    sAuth.isAuthenticated = true
    ∧ sAuth.store.token = some tok0
    ∧ ((mkKeycloak sAuth).logout sAuth).isAuthenticated = false
    ∧ ((mkKeycloak sAuth).logout sAuth).store = emptyStore
    ∧ ((mkKeycloak sAuth).logout sAuth).logoutEvents = sAuth.logoutEvents + 1 :=
  ⟨rfl, rfl, rfl, rfl, rfl⟩

/-- C8 (amended): besides the read-only snapshots (`token`,
`authenticated`), the facade exposes the mutating operations `login`,
`logout` and `updateToken` — the very state-machine functions — so any
collaborator holding the facade can change the session state and the
credential store. -/
theorem c8_amended_facade_exposes_mutations (s : ClientState) :
    (mkKeycloak s).logout = logout
    ∧ (mkKeycloak s).updateToken = updateToken
    ∧ (mkKeycloak s).login GrantResult.failure = (fun st => login st GrantResult.failure)
    ∧ ((mkKeycloak s).logout s).store = emptyStore
    ∧ ((mkKeycloak s).logout s).logoutEvents = s.logoutEvents + 1
    ∧ (mkKeycloak s).token = s.token
    ∧ (mkKeycloak s).authenticated = s.isAuthenticated :=
  ⟨rfl, rfl, rfl, rfl, rfl, rfl, rfl⟩

/-! ## Claim C9 — stored token exposed as authenticated before the check -/

/-- C9 counterexample: a malformed stored token is *not* observable as an
authenticated credential: its decode throws inside the same synchronous
mount tick as the setters, so the first observable snapshot is already
logged out (with the logout notification fired), even though the store
held a truthy token string. -/
theorem c9_counterexample_malformed_not_observable :
    corruptStore.token = some garbageToken
    ∧ truthy corruptStore.token = true
    ∧ decodeTokenData garbageToken = none
    ∧ (initialEffect corruptStore 0 RefreshOutcome.err).afterSync.isAuthenticated = false
    ∧ (initialEffect corruptStore 0 RefreshOutcome.err).afterSync.logoutEvents = 1 :=
  ⟨rfl, rfl, rfl, rfl, rfl⟩

/-- C9 (amended): on process start with a truthy stored access token, the
session is marked authenticated before the decode, but the validity
check's synchronous part runs in the same tick, so the first observable
snapshot is the mounted authenticated state exactly when that check does
not force a logout: a malformed token is logged out within the tick and
never observed authenticated, while a decodable token — near expiry or
even already expired — *is* exposed as the authenticated credential (the
refresh-attempt path suspends at its `await`) until the refresh call
settles, and a far-from-expiry token simply stays exposed. -/
theorem c9_amended_sync_check_gates_exposure
    (persisted : Store) (t : String) (currentTime : Int) (o : RefreshOutcome)
    (h : persisted.token = some t) (htr : truthy persisted.token = true) :
    (initialEffect persisted currentTime o).afterSync
      = (if checkTokenValidity currentTime t = CheckAction.forceLogout
         then logout (mountedState persisted t)
         else mountedState persisted t)
    ∧ (checkTokenValidity currentTime t = CheckAction.tryRefresh
        → (mkKeycloak (initialEffect persisted currentTime o).afterSync).token = some t
          ∧ (mkKeycloak (initialEffect persisted currentTime o).afterSync).authenticated
             = true) := by
  have hne : ¬ t = "" := by
    rw [h] at htr
    exact of_decide_eq_true htr
  have hsync : (initialEffect persisted currentTime o).afterSync
      = (if checkTokenValidity currentTime t = CheckAction.forceLogout
         then logout (mountedState persisted t)
         else mountedState persisted t) := by
    simp only [initialEffect, h]
    rw [if_neg hne]
    split
    · rename_i heq
      rw [heq]
      rfl
    · rename_i heq
      rw [heq]
      rfl
    · rename_i heq
      rw [heq]
      split <;> rfl
  refine ⟨hsync, fun htry => ?_⟩
  rw [hsync, htry]
  exact ⟨rfl, rfl⟩

/-- C9 witness: with `farToken` stored and only five seconds of lifetime
left, the mount tick reaches the refresh attempt's `await`, leaving the
stale stored token exposed through the facade as an authenticated
credential. -/
theorem c9_amended_sync_check_gates_exposure_witness :
    farStore.token = some farToken
    ∧ truthy farStore.token = true
    ∧ ((initialEffect farStore 3595000 RefreshOutcome.err).afterSync
        = (if checkTokenValidity 3595000 farToken = CheckAction.forceLogout
           then logout (mountedState farStore farToken)
           else mountedState farStore farToken)
       ∧ (checkTokenValidity 3595000 farToken = CheckAction.tryRefresh
           → (mkKeycloak (initialEffect farStore 3595000 RefreshOutcome.err).afterSync).token
              = some farToken
             ∧ (mkKeycloak
                  (initialEffect farStore 3595000 RefreshOutcome.err).afterSync).authenticated
              = true)) :=
  ⟨rfl, rfl,
    c9_amended_sync_check_gates_exposure farStore farToken 3595000
      RefreshOutcome.err rfl rfl⟩

/-! ## Claim C10 — `updateToken` ignores `minValidity` -/

/-- C10: `updateToken` never reads its `minValidity` argument: for any two
argument values and the same starting state its result is identical, and
it posts a refresh request exactly when a truthy renewal token is in
storage — regardless of how much lifetime the current access token has
left. -/
theorem c10_updateToken_ignores_minValidity (m1 m2 : Int)
    (o : RefreshOutcome) (s : ClientState) :
    updateToken m1 o s = updateToken m2 o s
    ∧ (updateToken m1 o s).requestsSent
       = (if truthy s.store.refresh_token then 1 else 0) := by
  refine ⟨rfl, ?_⟩
  by_cases ht : truthy s.store.refresh_token = true
  · cases o <;> simp [updateToken, ht]
  · simp [updateToken, ht]
